import Mathlib

/-!
Verification development for the LifeScience dashboard (`src/main.py`).

The script loads two CSV tables (movies, species), validates required
columns, filters rows by widget selections, reshapes via pivot/melt for a
line chart, and fits an ordinary-least-squares line over two user-selected
species columns.  This file gives a shallow embedding of that pipeline:
tables are lists of records (numeric cells as exact rationals `ℚ`,
years as `ℤ`), pandas operations become pure list functions, and the
control flow of the script (load fallback, validation branches, the undefined
`variables` reference at the species bar-chart section) becomes an
explicit run function over load results.
-/

namespace LifeScience

/-- A row of the movie table, after `pd.read_csv` of
`movies_genres_summary4.csv` with the columns required at line 49 of
`main.py`: year, ActorId, Name, MovieId, Title, genre, Country, gross.
`gross` is modelled as an exact rational. -/
structure MovieRow where
  year : Int
  actorId : String
  name : String
  movieId : String
  title : String
  genre : String
  country : String
  gross : Rat
deriving DecidableEq, Repr

/-- Line 67 of `main.py`:
`movie_df[(movie_df["genre"].isin(genres)) & (movie_df["year"].between(years[0], years[1]))]`.
`Series.between` is inclusive on both ends by default. -/
def df_filtered (movie_df : List MovieRow) (genres : List String)
    (lo hi : Int) : List MovieRow :=
  movie_df.filter (fun r => decide (r.genre ∈ genres ∧ lo ≤ r.year ∧ r.year ≤ hi))

/-- Lines 41-46: the list comprehension
`[col for col in required_columns if col not in df.columns]`. -/
def missing_columns (cols required_columns : List String) : List String :=
  required_columns.filter (fun col => decide (col ∉ cols))

/-- Lines 41-46 of `main.py`: `validate_columns(df, required_columns)`.
The function only reads `df.columns`, so it is embedded over the column
list.  First component: the returned Bool; second: the list of `st.error`
messages it emits (one message naming the missing columns, or none). -/
def validate_columns (cols required_columns : List String) :
    Bool × List String :=
  let missing := missing_columns cols required_columns
  if missing.isEmpty then (true, [])
  else (false,
    ["DataFrame is missing required columns: " ++ String.intercalate ", " missing])

/-- Line 49: `movie_required_columns`. -/
def movie_required_columns : List String :=
  ["year", "ActorId", "Name", "MovieId", "Title", "genre", "Country", "gross"]

/-- Line 100: `species_required_columns`. -/
def species_required_columns : List String :=
  ["species", "protection", "defense", "attack", "feeding", "satisfaction",
   "sexual_reproduction"]

/-- Line 64: lower bound of the year slider, `st.slider("Years", 1986, 2016, ...)`. -/
def year_slider_min : Int := 1986

/-- Line 64: upper bound of the year slider. -/
def year_slider_max : Int := 2016

/-- Line 64: the default selected range `(2000, 2024)` of the year slider. -/
def year_slider_default : Int × Int := (2000, 2024)

/-- Modelled from the spec: the precondition of the range-slider widget that a
default range lie within the slider bounds (the widget rejects defaults
outside `[lo, hi]`). -/
def slider_default_in_bounds (lo hi : Int) (default : Int × Int) : Prop :=
  lo ≤ default.1 ∧ default.1 ≤ default.2 ∧ default.2 ≤ hi

/-! ### Loading and the top-to-bottom run

Only the column list of a loaded table steers the control flow of the script
(validation and branch selection), so the run model carries tables at
that granularity; the row-level behaviour of each section is embedded
separately below. -/

/-- A loaded table as the control flow observes it: its column list.
`pd.DataFrame()`, the load-failure fallback, has no columns. -/
structure Table where
  cols : List String
deriving DecidableEq, Repr

/-- The empty fallback table `pd.DataFrame()` of lines 25 and 35. -/
def emptyTable : Table := ⟨[]⟩

/-- Lines 18-25 and 28-35: `load_movie_data` / `load_species_data`.  The
outcome of `pd.read_csv` is the argument (`.ok` a table, `.error` the
exception text); the result is the table the caller receives together
with the `st.error` messages emitted.  On any failure the fallback is the
empty table. -/
def load_data (kind : String) (readResult : Except String Table) :
    Table × List String :=
  match readResult with
  | .ok df => (df, [])
  | .error e => (emptyTable, ["Error loading " ++ kind ++ " data: " ++ e])

/-- The Python names assigned before line 126 of `main.py`, hence defined
when the bar-chart condition `if variables:` is evaluated (in the run in
which both sections validated; a failed movie validation only removes the
movie-branch names).  The sole assignment to `variables` (lines 119-123)
is commented out, so `variables` is absent either way. -/
def names_in_scope_at_bar_chart : List String :=
  ["alt", "pd", "st", "LinearRegression", "np",
   "load_movie_data", "load_species_data", "movie_df", "species_df",
   "validate_columns", "movie_required_columns", "all_genres", "genres",
   "years", "df_filtered", "df_reshaped", "df_chart", "chart",
   "species_required_columns", "species", "species_filtered"]

/-- Python name resolution for `variables` at line 126. -/
def variables_is_defined : Bool :=
  names_in_scope_at_bar_chart.contains "variables"

/-- What a completed (non-crashing) run renders, as far as the
error-handling claims observe it: the `st.error` messages emitted and
whether each data section rendered its tables and charts. -/
structure RunOutput where
  messages : List String
  movieSectionRendered : Bool
  speciesSectionRendered : Bool
deriving DecidableEq, Repr

/-- The top-to-bottom run of `main.py` over the two `pd.read_csv`
outcomes.  `Except.error` is an uncaught Python exception aborting the
script.  The movie section (lines 50-97) renders when its validation
passes and otherwise reports; the species section (lines 101-177) reaches
`if variables:` (line 126) whenever its validation passes, where an
undefined `variables` raises `NameError`. -/
def run_program (movieRead speciesRead : Except String Table) :
    Except String RunOutput :=
  let m := load_data "movie" movieRead
  let s := load_data "species" speciesRead
  let mv := validate_columns m.1.cols movie_required_columns
  let movieMsgs :=
    if mv.1 then []
    else mv.2 ++ ["Movie data not loaded correctly or missing necessary columns."]
  let sv := validate_columns s.1.cols species_required_columns
  if sv.1 then
    if variables_is_defined then
      .ok { messages := m.2 ++ s.2 ++ movieMsgs,
            movieSectionRendered := mv.1, speciesSectionRendered := true }
    else .error "NameError: name variables is not defined"
  else
    .ok { messages := m.2 ++ s.2 ++ movieMsgs ++ sv.2 ++
            ["Species data not loaded correctly or missing necessary columns."],
          movieSectionRendered := mv.1, speciesSectionRendered := false }

/-! ### Pivot and melt (lines 76-84) -/

/-- The distinct years of the filtered table: the index of
`pivot_table(index="year", ...)`.  First-occurrence order is kept; the
sort order of the pivot (`sort_values`, line 79) only reorders rows and does
not affect any per-key total. -/
def pivot_years (rows : List MovieRow) : List Int :=
  (rows.map (·.year)).dedup

/-- The distinct genres of the filtered table: the columns of
`pivot_table(columns="genre", ...)`. -/
def pivot_genres (rows : List MovieRow) : List String :=
  (rows.map (·.genre)).dedup

/-- The (year, genre) aggregation `aggfunc="sum"` with `fill_value=0`: the
summed gross of the rows carrying that year and genre, 0 when none do.
This is also the direct groupby-sum of the table. -/
def grouped_gross (rows : List MovieRow) (y : Int) (g : String) : Rat :=
  ((rows.filter (fun r => decide (r.year = y ∧ r.genre = g))).map (·.gross)).sum

/-- Lines 76-84: the pivot of the table melted back to long form by
`pd.melt(..., id_vars="year", var_name="genre", value_name="gross")`: one
`(year, genre, gross)` triple per distinct year and per distinct genre
column of the pivot.  (`reset_index` and the column-major order of the melt
only arrange rows.) -/
def df_chart (rows : List MovieRow) : List (Int × String × Rat) :=
  (pivot_years rows).flatMap (fun y =>
    (pivot_genres rows).map (fun g => (y, g, grouped_gross rows y g)))

/-- The total gross the melted chart table carries for a (year, genre)
key: the sum of the gross values of its entries with that key. -/
def chart_gross (chart : List (Int × String × Rat)) (y : Int) (g : String) : Rat :=
  ((chart.filter (fun e => decide (e.1 = y ∧ e.2.1 = g))).map (fun e => e.2.2)).sum

/-! ### The species table and the regression branch (lines 100-175) -/

/-- A pandas column dtype as the numeric guard of line 149 distinguishes
them: `np.float64`, `np.int64`, or anything else (`object`). -/
inductive Dtype
  | float64
  | int64
  | object
deriving DecidableEq, Repr

/-- Membership in `[np.float64, np.int64]` at line 149. -/
def Dtype.isNumeric : Dtype → Bool
  | .float64 => true
  | .int64 => true
  | .object => false

/-- A row of the species table with the columns required at line 100.
Numeric scores are exact rationals. -/
structure SpeciesRow where
  species : String
  protection : Rat
  defense : Rat
  attack : Rat
  feeding : Rat
  satisfaction : Rat
  sexual_reproduction : Rat
deriving DecidableEq, Repr

/-- Column access `row[name]` for the numeric columns offered by the two
regression selectboxes (lines 145-146); other names are never selected. -/
def SpeciesRow.get (r : SpeciesRow) : String → Rat
  | "protection" => r.protection
  | "defense" => r.defense
  | "attack" => r.attack
  | "feeding" => r.feeding
  | "satisfaction" => r.satisfaction
  | "sexual_reproduction" => r.sexual_reproduction
  | _ => 0

/-- The species table: its rows plus the dtype `read_csv` inferred for
each column (what `species_filtered[x_var].dtype` reads at line 149). -/
structure SpeciesTable where
  rows : List SpeciesRow
  dtype : String → Dtype

/-- Line 110: `species_df[species_df["species"].isin(species)]`.  Row
selection by a boolean mask keeps every column dtype. -/
def species_filtered (species_df : SpeciesTable) (sel : List String) :
    SpeciesTable :=
  ⟨species_df.rows.filter (fun r => decide (r.species ∈ sel)), species_df.dtype⟩

/-- Lines 150-151: the x and y arrays drawn row-by-row from the filtered
table for the chosen columns. -/
def regression_points (t : SpeciesTable) (x_var y_var : String) :
    List (Rat × Rat) :=
  t.rows.map (fun r => (r.get x_var, r.get y_var))

/-- Number of samples, as a rational. -/
def nQ (pts : List (Rat × Rat)) : Rat := pts.length

/-- Sum of the x values. -/
def sumX (pts : List (Rat × Rat)) : Rat := (pts.map (fun p => p.1)).sum

/-- Sum of the y values. -/
def sumY (pts : List (Rat × Rat)) : Rat := (pts.map (fun p => p.2)).sum

/-- Sum of the squared x values. -/
def sumXX (pts : List (Rat × Rat)) : Rat := (pts.map (fun p => p.1 * p.1)).sum

/-- Sum of the products x·y. -/
def sumXY (pts : List (Rat × Rat)) : Rat := (pts.map (fun p => p.1 * p.2)).sum

/-- The normal-equation denominator n·Σx² − (Σx)²; nonzero exactly when
the one-feature least-squares problem has a unique solution. -/
def fit_denom (pts : List (Rat × Rat)) : Rat :=
  nQ pts * sumXX pts - sumX pts * sumX pts

/-- Lines 154-155: `LinearRegression().fit(x, y)` for a single feature —
the ordinary-least-squares closed form: slope
a = (n·Σxy − Σx·Σy) / (n·Σx² − (Σx)²) and intercept b = (Σy − a·Σx)/n. -/
def fitLR (pts : List (Rat × Rat)) : Rat × Rat :=
  let a := (nQ pts * sumXY pts - sumX pts * sumY pts) / fit_denom pts
  let b := (sumY pts - a * sumX pts) / nQ pts
  (a, b)

/-- The sum of squared residuals of the line y = a·x + b on the points:
the objective ordinary least squares minimizes. -/
def sse (pts : List (Rat × Rat)) (a b : Rat) : Rat :=
  (pts.map (fun p => (p.2 - a * p.1 - b) ^ 2)).sum

/-- Residual sum Σ (yᵢ − a·xᵢ − b). -/
def res0 (pts : List (Rat × Rat)) (a b : Rat) : Rat :=
  (pts.map (fun p => p.2 - a * p.1 - b)).sum

/-- Weighted residual sum Σ (yᵢ − a·xᵢ − b)·xᵢ. -/
def res1 (pts : List (Rat × Rat)) (a b : Rat) : Rat :=
  (pts.map (fun p => (p.2 - a * p.1 - b) * p.1)).sum

/-- Σ (u·xᵢ + v)², the quadratic excess of a shifted line. -/
def sq_shift (pts : List (Rat × Rat)) (u v : Rat) : Rat :=
  (pts.map (fun p => (u * p.1 + v) ^ 2)).sum

/-- What the regression part of the species section (lines 149-175)
produces. -/
inductive RegOutcome
  | fitted (pts : List (Rat × Rat)) (coeffs : Rat × Rat)
      (regression_df : List (Rat × Rat × Rat))
  | numericError (msg : String)
deriving DecidableEq, Repr

/-- Lines 149-175: the guard checks only the dtypes of the two chosen
columns; when it passes, the x and y arrays are built from the (possibly
empty) filtered rows, the model is fitted, and `regression_df` (lines
159-163) pairs the x and y of each row with the predicted a·x + b; otherwise
`st.error` reports non-numeric variables. -/
def regression_branch (t : SpeciesTable) (x_var y_var : String) : RegOutcome :=
  if (t.dtype x_var).isNumeric && (t.dtype y_var).isNumeric then
    let pts := regression_points t x_var y_var
    let coeffs := fitLR pts
    .fitted pts coeffs
      (pts.map (fun p => (p.1, p.2, coeffs.1 * p.1 + coeffs.2)))
  else .numericError "Selected variables must be numeric for regression analysis."

/-! ### One reactive rerun over the loaded tables (frame claim) -/

/-- The session state: the two tables the cached loaders returned. -/
structure Session where
  movie_df : List MovieRow
  species_df : SpeciesTable

/-- The tables and charts one rerun derives. -/
structure SessionOutputs where
  filtered : List MovieRow
  chart : List (Int × String × Rat)
  speciesShown : List SpeciesRow
  regression : RegOutcome

/-- One rerun of the script body over the loaded tables and the widget
inputs: every pandas step builds a new table from its input, and no
statement assigns to `movie_df` or `species_df` after loading, so the
session state is returned unchanged next to the outputs. -/
def run_session (s : Session) (genres : List String) (lo hi : Int)
    (speciesSel : List String) (x_var y_var : String) :
    Session × SessionOutputs :=
  let fr := df_filtered s.movie_df genres lo hi
  let chart := df_chart fr
  let sf := species_filtered s.species_df speciesSel
  let reg := regression_branch sf x_var y_var
  (s, ⟨fr, chart, sf.rows, reg⟩)

/-- A concrete species table used by witnesses: two rows, all columns
numeric. -/
def sample_species_table : SpeciesTable :=
  { rows := [⟨"lion", 3, 4, 5, 1, 2, 6⟩, ⟨"zebra", 2, 1, 0, 3, 6, 4⟩],
    dtype := fun _ => Dtype.float64 }

end LifeScience

open LifeScience

/-- C2: a row appears in `df_filtered` iff it is a row of the movie table
whose genre is in the selected genres and whose year lies in `[lo, hi]`
inclusive; in particular every filtered row satisfies `lo ≤ year ≤ hi`. -/
theorem c2_filter_membership (movie_df : List MovieRow) (genres : List String)
    (lo hi : Int) :
    (∀ r : MovieRow, r ∈ df_filtered movie_df genres lo hi ↔
      (r ∈ movie_df ∧ r.genre ∈ genres ∧ lo ≤ r.year ∧ r.year ≤ hi)) ∧
    (∀ r ∈ df_filtered movie_df genres lo hi, lo ≤ r.year ∧ r.year ≤ hi) := by
  constructor
  · intro r
    simp [df_filtered, List.mem_filter]
  · intro r hr
    have h := (List.mem_filter.mp hr).2
    simp only [decide_eq_true_eq] at h
    exact ⟨h.2.1, h.2.2⟩

/-- Witness for C2 at a concrete input: a row inside the bounds is kept and
satisfies the bounds, and the membership equivalence holds for it. -/
theorem c2_filter_membership_witness :
    (let r : MovieRow :=
      ⟨2005, "a1", "n", "m1", "T", "Drama", "PT", 7⟩
     r ∈ df_filtered [r] ["Drama"] 2000 2016 ∧ 2000 ≤ r.year ∧ r.year ≤ 2016) := by
  have h := c2_filter_membership
    [⟨2005, "a1", "n", "m1", "T", "Drama", "PT", 7⟩] ["Drama"] 2000 2016
  refine ⟨(h.1 _).mpr (by decide), ?_⟩
  exact h.2 _ ((h.1 _).mpr (by decide))

/-- C5: `validate_columns` returns `true` iff every required column is
present; the missing list it reports holds exactly the required columns
absent from the table; and the function reads only the column list,
returning a flag and messages without any table (so the table is
unmodified by construction). -/
theorem c5_validate_columns (cols required_columns : List String) :
    ((validate_columns cols required_columns).1 = true ↔
      ∀ c ∈ required_columns, c ∈ cols) ∧
    (∀ c, c ∈ missing_columns cols required_columns ↔
      (c ∈ required_columns ∧ c ∉ cols)) ∧
    ((validate_columns cols required_columns).1 = false →
      (validate_columns cols required_columns).2 =
        ["DataFrame is missing required columns: " ++
          String.intercalate ", " (missing_columns cols required_columns)]) := by
  refine ⟨?_, ?_, ?_⟩
  · constructor
    · intro h c hc
      by_contra hnc
      have hmem : c ∈ missing_columns cols required_columns := by
        simp [missing_columns, hc, hnc]
      have hne : ¬ (missing_columns cols required_columns).isEmpty := by
        cases hfil : missing_columns cols required_columns with
        | nil => rw [hfil] at hmem; simp at hmem
        | cons a l => simp [List.isEmpty]
      simp [validate_columns, hne] at h
    · intro h
      have hemp : missing_columns cols required_columns = [] := by
        rw [List.eq_nil_iff_forall_not_mem]
        intro c hc
        have := (List.mem_filter.mp hc)
        simp only [decide_eq_true_eq] at this
        exact this.2 (h c this.1)
      simp [validate_columns, hemp]
  · intro c
    simp [missing_columns, List.mem_filter]
  · intro h
    have hne : ¬ (missing_columns cols required_columns).isEmpty := by
      intro habs
      have : missing_columns cols required_columns = [] :=
        List.isEmpty_iff.mp habs
      simp [validate_columns, this] at h
    simp [validate_columns, hne]

/-- Witness for C5 at a concrete input: validation of a table lacking
`gross` fails and reports exactly that column. -/
theorem c5_validate_columns_witness :
    (validate_columns ["year"] ["year", "gross"]).1 = false ∧
    missing_columns ["year"] ["year", "gross"] = ["gross"] := by
  have h := c5_validate_columns ["year"] ["year", "gross"]
  constructor
  · cases hb : (validate_columns ["year"] ["year", "gross"]).1 with
    | false => rfl
    | true =>
      have := (h.1.mp hb) "gross" (by decide)
      simp at this
  · decide

/-- C9: the year slider is built with bounds 1986..2016 but default range
(2000, 2024); the upper endpoint of the default 2024 exceeds the maximum 2016,
so the default violates the in-bounds precondition of the widget. -/
theorem c9_slider_default_out_of_bounds :
    ¬ slider_default_in_bounds year_slider_min year_slider_max
        year_slider_default ∧
    year_slider_default.2 > year_slider_max := by
  constructor
  · intro h
    exact absurd h.2.2 (by decide)
  · decide

/-- C4: whenever the species table passes column validation, the run
reaches the bar-chart condition `if variables:`; `variables` is not among
the names in scope there (its only assignment is commented out), so the
run aborts with a `NameError` — the validation branch guarding the
section cannot make the reference safe. -/
theorem c4_undefined_variables (movieRead speciesRead : Except String Table)
    (h : (validate_columns (load_data "species" speciesRead).1.cols
      species_required_columns).1 = true) :
    variables_is_defined = false ∧
    run_program movieRead speciesRead =
      Except.error "NameError: name variables is not defined" := by
  have hv : variables_is_defined = false := by decide
  refine ⟨hv, ?_⟩
  simp [run_program, h, hv]

/-- Witness for C4: with both tables loading with their required columns,
the run ends in the `NameError`. -/
theorem c4_undefined_variables_witness :
    run_program (Except.ok ⟨movie_required_columns⟩)
        (Except.ok ⟨species_required_columns⟩) =
      Except.error "NameError: name variables is not defined" :=
  (c4_undefined_variables (Except.ok ⟨movie_required_columns⟩)
    (Except.ok ⟨species_required_columns⟩) (by decide)).2

/-- Counterexample to C3 as stated: a run in which the movie CSV is
missing (the loader falls back to the empty table and the movie section
reports and skips) still crashes, because the intact species table passes
validation and reaches the undefined `variables` name.  So it is not true
that every run with a missing file proceeds without crashing. -/
theorem c3_counterexample :
    run_program (Except.error "FileNotFoundError")
        (Except.ok ⟨species_required_columns⟩) =
      Except.error "NameError: name variables is not defined" ∧
    ¬ ∃ out, run_program (Except.error "FileNotFoundError")
        (Except.ok ⟨species_required_columns⟩) = Except.ok out := by
  have he : run_program (Except.error "FileNotFoundError")
      (Except.ok ⟨species_required_columns⟩) =
      Except.error "NameError: name variables is not defined" := by
    have hv : (validate_columns (⟨species_required_columns⟩ : Table).cols
        species_required_columns).1 = true := by decide
    have hb : variables_is_defined = false := by decide
    simp [run_program, load_data, hv, hb]
  refine ⟨he, ?_⟩
  rintro ⟨out, hout⟩
  rw [he] at hout
  exact Except.noConfusion hout

/-- C3 (amended): the loader answers any load failure with the empty
table plus an error message; and in every run whose species table fails
validation, the program finishes without crashing, reports the species
failure, and — when the movie table also fails validation — reports the
movie failure and renders neither section.  (When the species table
passes validation the run instead crashes on the undefined `variables`;
see C4.) -/
theorem c3_error_handling (movieRead speciesRead : Except String Table) :
    (∀ kind e, load_data kind (Except.error e) =
      (emptyTable, ["Error loading " ++ kind ++ " data: " ++ e])) ∧
    ((validate_columns (load_data "species" speciesRead).1.cols
        species_required_columns).1 = false →
      ∃ out, run_program movieRead speciesRead = Except.ok out ∧
        out.speciesSectionRendered = false ∧
        "Species data not loaded correctly or missing necessary columns."
          ∈ out.messages ∧
        ((validate_columns (load_data "movie" movieRead).1.cols
            movie_required_columns).1 = false →
          out.movieSectionRendered = false ∧
          "Movie data not loaded correctly or missing necessary columns."
            ∈ out.messages)) := by
  refine ⟨fun kind e => rfl, fun hs => ?_⟩
  have hrun : run_program movieRead speciesRead = Except.ok
      { messages := (load_data "movie" movieRead).2 ++
          (load_data "species" speciesRead).2 ++
          (if (validate_columns (load_data "movie" movieRead).1.cols
              movie_required_columns).1
            then []
            else (validate_columns (load_data "movie" movieRead).1.cols
                movie_required_columns).2 ++
              ["Movie data not loaded correctly or missing necessary columns."]) ++
          (validate_columns (load_data "species" speciesRead).1.cols
            species_required_columns).2 ++
          ["Species data not loaded correctly or missing necessary columns."],
        movieSectionRendered :=
          (validate_columns (load_data "movie" movieRead).1.cols
            movie_required_columns).1,
        speciesSectionRendered := false } := by
    simp [run_program, hs]
  refine ⟨_, hrun, rfl, by simp, fun hm => ⟨hm, by simp [hm]⟩⟩

/-- Witness for C3 (amended): with both CSV reads failing, the loaders
fall back to empty tables, the run completes without crashing, and both
sections report and render nothing. -/
theorem c3_error_handling_witness :
    ∃ out, run_program (Except.error "FileNotFoundError movie")
        (Except.error "FileNotFoundError species") = Except.ok out ∧
      out.speciesSectionRendered = false ∧
      "Species data not loaded correctly or missing necessary columns."
        ∈ out.messages ∧
      out.movieSectionRendered = false ∧
      "Movie data not loaded correctly or missing necessary columns."
        ∈ out.messages := by
  obtain ⟨out, h1, h2, h3, h4⟩ :=
    (c3_error_handling (Except.error "FileNotFoundError movie")
      (Except.error "FileNotFoundError species")).2 (by decide)
  exact ⟨out, h1, h2, h3, (h4 (by decide)).1, (h4 (by decide)).2⟩

/-- C8: one rerun of the pipeline returns the two loaded tables of the session
unchanged: filtering, reshaping, and regression each build new tables and
never assign to `movie_df` or `species_df`. -/
theorem c8_no_mutation (s : Session) (genres : List String) (lo hi : Int)
    (speciesSel : List String) (x_var y_var : String) :
    (run_session s genres lo hi speciesSel x_var y_var).1 = s ∧
    (run_session s genres lo hi speciesSel x_var y_var).1.movie_df =
      s.movie_df ∧
    (run_session s genres lo hi speciesSel x_var y_var).1.species_df =
      s.species_df :=
  ⟨rfl, rfl, rfl⟩

/-- C10: deselecting every species leaves an empty filtered table, whose
column dtypes are inherited from the full table; the numeric-dtype guard
therefore still passes and the least-squares fit is invoked on an empty
sample list (the guard never checks for emptiness). -/
theorem c10_fit_on_empty (species_df : SpeciesTable) (x_var y_var : String)
    (hx : (species_df.dtype x_var).isNumeric = true)
    (hy : (species_df.dtype y_var).isNumeric = true) :
    (species_filtered species_df []).rows = [] ∧
    regression_branch (species_filtered species_df []) x_var y_var =
      RegOutcome.fitted [] (fitLR []) [] := by
  have hrows : (species_filtered species_df []).rows = [] := by
    simp [species_filtered]
  refine ⟨hrows, ?_⟩
  have hdx : ((species_filtered species_df []).dtype x_var).isNumeric = true := hx
  have hdy : ((species_filtered species_df []).dtype y_var).isNumeric = true := hy
  simp [regression_branch, regression_points, hrows, hdx, hdy]

/-- Witness for C10 at a concrete all-numeric table. -/
theorem c10_fit_on_empty_witness :
    (species_filtered sample_species_table []).rows = [] ∧
    regression_branch (species_filtered sample_species_table [])
        "feeding" "satisfaction" =
      RegOutcome.fitted [] (fitLR []) [] :=
  c10_fit_on_empty sample_species_table "feeding" "satisfaction" rfl rfl

/-! ### Least-squares lemmas -/

/-- The residual sum in terms of the moment sums. -/
theorem res0_eq (pts : List (Rat × Rat)) (a b : Rat) :
    res0 pts a b = sumY pts - a * sumX pts - b * nQ pts := by
  induction pts with
  | nil => simp [res0, sumY, sumX, nQ]
  | cons p t ih =>
    simp only [res0, sumY, sumX, nQ, List.map_cons, List.sum_cons,
      List.length_cons] at ih ⊢
    rw [ih]
    push_cast
    ring

/-- The x-weighted residual sum in terms of the moment sums. -/
theorem res1_eq (pts : List (Rat × Rat)) (a b : Rat) :
    res1 pts a b = sumXY pts - a * sumXX pts - b * sumX pts := by
  induction pts with
  | nil => simp [res1, sumXY, sumXX, sumX]
  | cons p t ih =>
    simp only [res1, sumXY, sumXX, sumX, List.map_cons, List.sum_cons] at ih ⊢
    rw [ih]
    ring

/-- Shifting the line by (u, v) decomposes the squared error into the
original error, the residual cross terms, and a nonnegative excess. -/
theorem sse_shift (pts : List (Rat × Rat)) (a b u v : Rat) :
    sse pts (a - u) (b - v) =
      sse pts a b + 2 * u * res1 pts a b + 2 * v * res0 pts a b +
        sq_shift pts u v := by
  induction pts with
  | nil => simp [sse, res0, res1, sq_shift]
  | cons p t ih =>
    simp only [sse, res0, res1, sq_shift, List.map_cons, List.sum_cons] at ih ⊢
    rw [ih]
    ring

/-- A nonzero normal-equation denominator forces a nonempty sample. -/
theorem nQ_ne_zero (pts : List (Rat × Rat)) (hd : fit_denom pts ≠ 0) :
    nQ pts ≠ 0 := by
  intro h
  apply hd
  have hcast : ((pts.length : Rat)) = 0 := h
  have hlen : pts.length = 0 := Nat.cast_eq_zero.mp hcast
  have hnil : pts = [] := List.length_eq_zero.mp hlen
  subst hnil
  simp [fit_denom, nQ, sumXX, sumX]

/-- First normal equation: the fitted residuals sum to zero. -/
theorem fit_res0 (pts : List (Rat × Rat)) (hd : fit_denom pts ≠ 0) :
    res0 pts (fitLR pts).1 (fitLR pts).2 = 0 := by
  have hn := nQ_ne_zero pts hd
  rw [res0_eq]
  simp only [fitLR]
  field_simp
  ring

/-- Second normal equation: the fitted residuals are orthogonal to x. -/
theorem fit_res1 (pts : List (Rat × Rat)) (hd : fit_denom pts ≠ 0) :
    res1 pts (fitLR pts).1 (fitLR pts).2 = 0 := by
  have hn := nQ_ne_zero pts hd
  have hd' : nQ pts * sumXX pts - sumX pts * sumX pts ≠ 0 := by
    simpa [fit_denom] using hd
  rw [res1_eq]
  simp only [fitLR, fit_denom]
  field_simp
  ring

/-- The quadratic excess of a shifted line is nonnegative. -/
theorem sq_shift_nonneg (pts : List (Rat × Rat)) (u v : Rat) :
    0 ≤ sq_shift pts u v := by
  apply List.sum_nonneg
  intro x hx
  obtain ⟨p, hp, rfl⟩ := List.mem_map.mp hx
  positivity

/-- The closed-form fit minimizes the sum of squared residuals: it is the
ordinary-least-squares solution. -/
theorem fitLR_minimizes (pts : List (Rat × Rat)) (hd : fit_denom pts ≠ 0)
    (a b : Rat) :
    sse pts (fitLR pts).1 (fitLR pts).2 ≤ sse pts a b := by
  have h := sse_shift pts (fitLR pts).1 (fitLR pts).2
    ((fitLR pts).1 - a) ((fitLR pts).2 - b)
  rw [sub_sub_cancel, sub_sub_cancel, fit_res0 pts hd, fit_res1 pts hd] at h
  have h2 := sq_shift_nonneg pts ((fitLR pts).1 - a) ((fitLR pts).2 - b)
  ring_nf at h
  linarith [h, h2]

/-- C6: on a table whose two selected columns are numeric and whose rows
are nonempty, the regression branch fits the closed-form line on the
row-aligned points and its result table carries exactly one entry per
input row, pairing the x and y of the row with a·x + b at that x; the fitted
coefficients minimize the squared-residual objective whenever the
least-squares problem is nondegenerate.  When the dtype guard fails, no
fit happens and the error message is reported instead. -/
theorem c6_regression_step :
    (∀ (t : SpeciesTable) (x_var y_var : String),
      ((t.dtype x_var).isNumeric = true) →
      ((t.dtype y_var).isNumeric = true) →
      t.rows ≠ [] →
      ∃ coeffs df,
        regression_branch t x_var y_var =
          RegOutcome.fitted (regression_points t x_var y_var) coeffs df ∧
        coeffs = fitLR (regression_points t x_var y_var) ∧
        df.length = t.rows.length ∧
        (∀ (i : Nat) (h1 : i < df.length) (h2 : i < t.rows.length),
          df.get ⟨i, h1⟩ =
            ((t.rows.get ⟨i, h2⟩).get x_var, (t.rows.get ⟨i, h2⟩).get y_var,
              coeffs.1 * (t.rows.get ⟨i, h2⟩).get x_var + coeffs.2)) ∧
        (fit_denom (regression_points t x_var y_var) ≠ 0 →
          ∀ a b, sse (regression_points t x_var y_var) coeffs.1 coeffs.2 ≤
            sse (regression_points t x_var y_var) a b)) ∧
    (∀ (t : SpeciesTable) (x_var y_var : String),
      ((t.dtype x_var).isNumeric && (t.dtype y_var).isNumeric) = false →
      regression_branch t x_var y_var =
        RegOutcome.numericError
          "Selected variables must be numeric for regression analysis.") := by
  constructor
  · intro t x_var y_var hx hy _
    refine ⟨fitLR (regression_points t x_var y_var),
      (regression_points t x_var y_var).map
        (fun p => (p.1, p.2, (fitLR (regression_points t x_var y_var)).1 * p.1 +
          (fitLR (regression_points t x_var y_var)).2)), ?_, rfl, ?_, ?_, ?_⟩
    · simp [regression_branch, hx, hy]
    · simp [regression_points]
    · intro i h1 h2
      simp [regression_points, List.get_eq_getElem]
    · intro hd a b
      exact fitLR_minimizes _ hd a b
  · intro t x_var y_var h
    simp only [regression_branch, h, Bool.false_eq_true, if_false]

/-- Witness for C6: the fitted half at the all-numeric sample table, and
the error half at the same rows with object dtypes. -/
theorem c6_regression_step_witness :
    (∃ coeffs df,
      regression_branch sample_species_table "feeding" "satisfaction" =
        RegOutcome.fitted
          (regression_points sample_species_table "feeding" "satisfaction")
          coeffs df ∧
      df.length = 2) ∧
    regression_branch
        { rows := sample_species_table.rows, dtype := fun _ => Dtype.object }
        "feeding" "satisfaction" =
      RegOutcome.numericError
        "Selected variables must be numeric for regression analysis." := by
  constructor
  · obtain ⟨coeffs, df, h1, _, h3, _, _⟩ :=
      c6_regression_step.1 sample_species_table "feeding" "satisfaction"
        rfl rfl (by simp [sample_species_table])
    exact ⟨coeffs, df, h1, by rw [h3]; rfl⟩
  · exact c6_regression_step.2 _ "feeding" "satisfaction" rfl

/-- C7: on points lying exactly on the line y = 2x (with a nondegenerate
least-squares problem), the closed-form fit recovers slope 2 and
intercept 0 — exactly, in the rational embedding, hence within any
floating tolerance. -/
theorem c7_linear_recovery (pts : List (Rat × Rat))
    (hlin : ∀ p ∈ pts, p.2 = 2 * p.1) (hd : fit_denom pts ≠ 0) :
    fitLR pts = (2, 0) := by
  have hy : sumY pts = 2 * sumX pts := by
    unfold sumY sumX
    rw [List.map_congr_left (g := fun p => 2 * p.1) hlin]
    simpa using List.sum_map_mul_left pts (fun p => p.1) 2
  have hxy : sumXY pts = 2 * sumXX pts := by
    unfold sumXY sumXX
    rw [List.map_congr_left (g := fun p => 2 * (p.1 * p.1))
      (fun p hp => by rw [hlin p hp]; ring)]
    simpa using List.sum_map_mul_left pts (fun p => p.1 * p.1) 2
  have hn := nQ_ne_zero pts hd
  have hd' : nQ pts * sumXX pts - sumX pts * sumX pts ≠ 0 := by
    simpa [fit_denom] using hd
  simp only [fitLR, fit_denom, hy, hxy]
  have ha : (nQ pts * (2 * sumXX pts) - sumX pts * (2 * sumX pts)) /
      (nQ pts * sumXX pts - sumX pts * sumX pts) = 2 := by
    field_simp
    ring
  rw [ha]
  simp

/-- Witness for C7 at the concrete points (0,0), (1,2). -/
theorem c7_linear_recovery_witness :
    (∀ p ∈ [((0 : Rat), (0 : Rat)), (1, 2)], p.2 = 2 * p.1) ∧
    fitLR [((0 : Rat), (0 : Rat)), (1, 2)] = (2, 0) := by
  have hlin : ∀ p ∈ [((0 : Rat), (0 : Rat)), (1, 2)], p.2 = 2 * p.1 := by
    rintro p hp
    simp only [List.mem_cons, List.not_mem_nil, or_false] at hp
    rcases hp with rfl | rfl <;> norm_num
  have hd : fit_denom [((0 : Rat), (0 : Rat)), (1, 2)] ≠ 0 := by
    norm_num [fit_denom, nQ, sumXX, sumX]
  exact ⟨hlin, c7_linear_recovery _ hlin hd⟩

/-! ### Pivot/melt round-trip lemmas -/

/-- Peeling one entry off a chart total. -/
theorem chart_gross_cons (e : Int × String × Rat)
    (l : List (Int × String × Rat)) (y : Int) (g : String) :
    chart_gross (e :: l) y g =
      (if e.1 = y ∧ e.2.1 = g then e.2.2 else 0) + chart_gross l y g := by
  by_cases h : e.1 = y ∧ e.2.1 = g
  · simp [chart_gross, List.filter_cons, h]
  · simp [chart_gross, List.filter_cons, h]

/-- Chart totals add over concatenation. -/
theorem chart_gross_append (l1 l2 : List (Int × String × Rat))
    (y : Int) (g : String) :
    chart_gross (l1 ++ l2) y g = chart_gross l1 y g + chart_gross l2 y g := by
  simp [chart_gross, List.filter_append]

/-- Chart totals over a flatMap decompose into a sum of block totals. -/
theorem chart_gross_flatMap (Y : List Int)
    (F : Int → List (Int × String × Rat)) (y : Int) (g : String) :
    chart_gross (Y.flatMap F) y g =
      (Y.map (fun x => chart_gross (F x) y g)).sum := by
  induction Y with
  | nil => simp [chart_gross]
  | cons a t ih => simp [List.flatMap_cons, chart_gross_append, ih]

/-- Summing an indicator over a duplicate-free list picks the single
matching element, if any. -/
theorem sum_map_ite_eq {α : Type} [DecidableEq α] (l : List α) (hl : l.Nodup)
    (a : α) (f : α → Rat) :
    (l.map (fun x => if x = a then f x else 0)).sum =
      if a ∈ l then f a else 0 := by
  induction l with
  | nil => simp
  | cons x t ih =>
    rcases List.nodup_cons.mp hl with ⟨hx, ht⟩
    simp only [List.map_cons, List.sum_cons, ih ht]
    by_cases hxa : x = a
    · subst hxa
      simp [hx]
    · have hax : ¬ a = x := fun h => hxa h.symm
      simp [hxa, hax, List.mem_cons]

/-- The chart total of one pivot row (one year, all genre columns). -/
theorem chart_gross_map_row (G : List String) (hG : G.Nodup) (yr y : Int)
    (g : String) (c : String → Rat) :
    chart_gross (G.map (fun x => (yr, x, c x))) y g =
      if yr = y ∧ g ∈ G then c g else 0 := by
  induction G with
  | nil => simp [chart_gross]
  | cons a t ih =>
    rcases List.nodup_cons.mp hG with ⟨ha, ht⟩
    simp only [List.map_cons]
    rw [chart_gross_cons, ih ht]
    by_cases hy : yr = y
    · subst hy
      by_cases hag : a = g
      · subst hag
        simp [ha]
      · have hga : ¬ g = a := fun h => hag h.symm
        simp [hag, hga, List.mem_cons]
    · simp [hy]

/-- A year absent from the pivot index has zero grouped gross. -/
theorem grouped_gross_year_notin (rows : List MovieRow) (y : Int) (g : String)
    (h : y ∉ pivot_years rows) : grouped_gross rows y g = 0 := by
  have hfil : rows.filter (fun r => decide (r.year = y ∧ r.genre = g)) = [] := by
    apply List.filter_eq_nil_iff.mpr
    intro r hr
    simp only [decide_eq_true_eq, not_and]
    intro h1 _
    apply h
    subst h1
    exact List.mem_dedup.mpr (List.mem_map_of_mem _ hr)
  unfold grouped_gross
  rw [hfil]
  simp

/-- A genre absent from the pivot columns has zero grouped gross. -/
theorem grouped_gross_genre_notin (rows : List MovieRow) (y : Int) (g : String)
    (h : g ∉ pivot_genres rows) : grouped_gross rows y g = 0 := by
  have hfil : rows.filter (fun r => decide (r.year = y ∧ r.genre = g)) = [] := by
    apply List.filter_eq_nil_iff.mpr
    intro r hr
    simp only [decide_eq_true_eq, not_and]
    intro _ h2
    apply h
    subst h2
    exact List.mem_dedup.mpr (List.mem_map_of_mem _ hr)
  unfold grouped_gross
  rw [hfil]
  simp

/-- For every table, the melted pivot carries per (year, genre) key the
same total as direct grouping. -/
theorem chart_gross_df_chart (rows : List MovieRow) (y : Int) (g : String) :
    chart_gross (df_chart rows) y g = grouped_gross rows y g := by
  have hY : (pivot_years rows).Nodup := List.nodup_dedup _
  have hG : (pivot_genres rows).Nodup := List.nodup_dedup _
  rw [df_chart, chart_gross_flatMap]
  have hmap : (pivot_years rows).map
      (fun x => chart_gross ((pivot_genres rows).map
        (fun g2 => (x, g2, grouped_gross rows x g2))) y g) =
      (pivot_years rows).map
      (fun x => if x = y then
        (if g ∈ pivot_genres rows then grouped_gross rows x g else 0) else 0) := by
    apply List.map_congr_left
    intro yr _
    rw [chart_gross_map_row _ hG]
    by_cases h1 : yr = y <;> by_cases h2 : g ∈ pivot_genres rows <;>
      simp [h1, h2]
  rw [hmap, sum_map_ite_eq _ hY]
  by_cases h1 : y ∈ pivot_years rows <;> by_cases h2 : g ∈ pivot_genres rows
  · simp [h1, h2]
  · simp [h1, h2, grouped_gross_genre_notin rows y g h2]
  · simp [h1, h2, grouped_gross_year_notin rows y g h1]
  · simp [h1, h2, grouped_gross_year_notin rows y g h1]

/-- C1: melting the year-by-genre pivot of the filtered movie table back
to long form yields, for every (year, genre) key, the same total gross as
grouping the filtered rows directly and summing gross — including keys
the pivot filled with 0. -/
theorem c1_pivot_melt_roundtrip (movie_df : List MovieRow)
    (genres : List String) (lo hi : Int) (y : Int) (g : String) :
    chart_gross (df_chart (df_filtered movie_df genres lo hi)) y g =
      grouped_gross (df_filtered movie_df genres lo hi) y g :=
  chart_gross_df_chart (df_filtered movie_df genres lo hi) y g
